import Mathlib

/-!
Shallow embedding of the AWS cloud-provider adapter of the
karpenter-provider-aws repository (instance launch/terminate paths,
error classification, drift detection) together with spec-modelled
pieces of the disruption engine (budget calculator, spot-to-spot
consolidation rule, termination grace handling) whose implementation
lives outside this source tree and is described by the repository's
disruption documentation.
-/

namespace KarpenterAws

/-! ## Error model (pkg/cloudprovider/aws/errors.go)

Go errors are modelled as a small inductive: `awsCode c` embeds an
`awserr.Error` carrying AWS error code `c` (wrapping with `fmt.Errorf`
preserves `errors.As` and hence the code, so wrapped errors are
identified with the wrapped-in error), `instanceTerminated` embeds
`InstanceTerminatedError`, `combined` embeds the plain error built by
`combineFleetErrors`, and `other` embeds any remaining plain error. -/

inductive AwsError where
  | awsCode (code : String)
  | instanceTerminated
  | combined (codes : List String)
  | other (msg : String)
deriving DecidableEq, Repr

/-- Constant `launchTemplateNotFoundCode` from errors.go. -/
def launchTemplateNotFoundCode : String := "InvalidLaunchTemplateName.NotFoundException"

/-- Variable `notFoundErrorCodes` from errors.go. -/
def notFoundErrorCodes : List String :=
  ["InvalidInstanceID.NotFound", launchTemplateNotFoundCode]

/-- Variable `unfulfillableCapacityErrorCodes` from errors.go. -/
def unfulfillableCapacityErrorCodes : List String :=
  ["InsufficientInstanceCapacity",
   "MaxSpotInstanceCountExceeded",
   "VcpuLimitExceeded",
   "UnfulfillableCapacity",
   "Unsupported"]

/-- Function `isNotFound` from errors.go: an AWS error whose code is a
known not-found code. Plain errors never match (`errors.As` fails). -/
def isNotFound : AwsError → Bool
  | .awsCode c => notFoundErrorCodes.contains c
  | _ => false

/-- Function `isInstanceTerminated` from errors.go. -/
def isInstanceTerminated : AwsError → Bool
  | .instanceTerminated => true
  | _ => false

/-- Function `isLaunchTemplateNotFound` from errors.go. -/
def isLaunchTemplateNotFound : AwsError → Bool
  | .awsCode c => c == launchTemplateNotFoundCode
  | _ => false

/-- Field `ErrorCode` of `ec2.CreateFleetError`, together with the
instance type and availability zone of the affected launch override
(`LaunchTemplateAndOverrides`), which identify the offering. -/
structure CreateFleetError where
  errorCode : String
  instanceType : String
  zone : String
deriving DecidableEq, Repr

/-- Function `isUnfulfillableCapacity` from errors.go. -/
def isUnfulfillableCapacity (e : CreateFleetError) : Bool :=
  unfulfillableCapacityErrorCodes.contains e.errorCode

/-! ## EC2 describe / terminate model (instance.go, `InstanceProvider`) -/

/-- Constant `ec2.InstanceStateNameTerminated`. -/
def instanceStateNameTerminated : String := "terminated"

/-- The fields of an `ec2.Instance` that `getInstance` inspects. -/
structure Ec2Instance where
  state : String
  privateDnsName : String
deriving DecidableEq, Repr

/-- The result of the `DescribeInstances` call made by `getInstance`:
either the API call failed with an error, or it returned a (flattened)
list of instances. -/
structure DescribeInstancesResult where
  apiError : Option AwsError
  instances : List Ec2Instance
deriving DecidableEq, Repr

/-- Method `InstanceProvider.getInstance`: propagates a not-found API
error, wraps any other API error, treats zero-or-many returned
instances and the `terminated` state as `InstanceTerminatedError`, and
(unless the resource-name node-name convention is active) rejects an
instance with an empty private DNS name. -/
def getInstance (d : DescribeInstancesResult) (useResourceName : Bool) :
    Except AwsError Ec2Instance :=
  match d.apiError with
  | some e =>
    if isNotFound e then .error e
    else .error (.other "failed to describe ec2 instances")
  | none =>
    match d.instances with
    | [i] =>
      if i.state == instanceStateNameTerminated then .error .instanceTerminated
      else if useResourceName then .ok i
      else if i.privateDnsName.length == 0 then
        .error (.other "PrivateDnsName was not set")
      else .ok i
    | _ => .error .instanceTerminated

/-- Method `InstanceProvider.Terminate`. Inputs: whether the provider
id parsed (`parseOk`), the error returned by
`TerminateInstancesWithContext` (`none` means the call succeeded), and
the describe result consulted by the follow-up `getInstance` call.
Returns `none` for a nil error. Mirrors the source: a not-found
terminate error returns nil; otherwise, if the follow-up describe
shows the instance terminated or not found, returns nil; otherwise the
terminate error is returned (with the describe error appended). -/
def Terminate (parseOk : Bool) (termErr : Option AwsError)
    (d : DescribeInstancesResult) (useResourceName : Bool) : Option AwsError :=
  if !parseOk then some (.other "getting instance ID") else
  match termErr with
  | none => none
  | some e =>
    if isNotFound e then none
    else
      match getInstance d useResourceName with
      | .error errMsg =>
        if isInstanceTerminated errMsg || isNotFound errMsg then none
        else some e
      | .ok _ => some e

/-! ## Instance types and offerings (instancetype.go and the core
cloudprovider interface consumed by `InstanceProvider`) -/

/-- Capacity type constants `v1alpha1.CapacityTypeSpot` /
`v1alpha1.CapacityTypeOnDemand`. -/
def capacityTypeSpot : String := "spot"

/-- Constant `v1alpha1.CapacityTypeOnDemand`. -/
def capacityTypeOnDemand : String := "on-demand"

/-- An offering advertised for an instance type: zone, capacity type
and availability (`cloudprovider.Offering`). -/
structure Offering where
  zone : String
  capacityType : String
  available : Bool
deriving DecidableEq, Repr

/-- The fields of an instance-type option that the launch path of
`InstanceProvider` inspects: its name (for the AWS provider,
`Name()` returns the EC2 instance type string), bare-metal flag, the
accelerator resource quantities consulted by `prioritizeInstanceTypes`,
and its offerings. -/
structure InstanceType where
  name : String
  bareMetal : Bool
  awsNeuron : Nat
  amdGPU : Nat
  nvidiaGPU : Nat
  offerings : List Offering
deriving DecidableEq, Repr

/-- Modelled from the spec: `cloudprovider.AvailableOfferings` is
defined outside this tree; the adapter interface advertises
`offerings:[{zone,capacityType,price,available}]` and this helper
keeps the available ones. -/
def AvailableOfferings (it : InstanceType) : List Offering :=
  it.offerings.filter (fun o => o.available)

/-- Function `functional.HasAnyPrefix` as used by
`prioritizeInstanceTypes` (string prefix tested on the character
lists). -/
def hasAnyPrefix (s : String) (ps : List String) : Bool :=
  ps.any (fun p => p.data.isPrefixOf s.data)

/-- Method `InstanceProvider.prioritizeInstanceTypes`: keep regular
(m/c/r/a/t/i-prefixed) non-metal instance families without Neuron, AMD
or NVIDIA accelerators; if that filter leaves nothing, return the
original slice. -/
def prioritizeInstanceTypes (instanceTypes : List InstanceType) : List InstanceType :=
  let genericInstanceTypes := instanceTypes.filter (fun it =>
    hasAnyPrefix it.name ["m", "c", "r", "a", "t", "i"] &&
    !it.bareMetal &&
    it.awsNeuron == 0 && it.amdGPU == 0 && it.nvidiaGPU == 0)
  if genericInstanceTypes.length != 0 then genericInstanceTypes else instanceTypes

/-- Constant `MaxInstanceTypes` from launchtemplate.go: the number of
instance type options to pass to CreateFleet. -/
def MaxInstanceTypes : Nat := 20

/-- The instance-type option preparation performed at the top of
`InstanceProvider.Create`: prioritize, then truncate to the first
`MaxInstanceTypes` entries when longer. -/
def createInstanceTypeOptions (instanceTypes : List InstanceType) : List InstanceType :=
  let prioritized := prioritizeInstanceTypes instanceTypes
  if prioritized.length > MaxInstanceTypes then prioritized.take MaxInstanceTypes
  else prioritized

/-- The two requirement sets of a `cloudprovider.NodeRequest` that
`getCapacityType` consults, as value sets:
`Template.Requirements.Get(LabelCapacityType)` and
`Template.Requirements.Get(LabelTopologyZone)`. -/
structure NodeRequestRequirements where
  capacityTypes : List String
  zones : List String
deriving DecidableEq, Repr

/-- Method `InstanceProvider.getCapacityType`: selects spot if the
capacity-type requirement includes spot and some instance-type option
has an available spot offering in a permitted zone; defaults to
on-demand otherwise. -/
def getCapacityType (reqs : NodeRequestRequirements)
    (instanceTypeOptions : List InstanceType) : String :=
  if reqs.capacityTypes.contains capacityTypeSpot then
    if instanceTypeOptions.any (fun it =>
        (AvailableOfferings it).any (fun o =>
          reqs.zones.contains o.zone && o.capacityType == capacityTypeSpot))
    then capacityTypeSpot
    else capacityTypeOnDemand
  else capacityTypeOnDemand

/-- Method `InstanceProvider.instanceToNode`: scan the instance-type
options for one whose name equals the launched instance's reported
type and build the node from it; `none` models the `panic` branch
reached when no option matches. -/
def instanceToNode (launchedInstanceType : String)
    (instanceTypes : List InstanceType) : Option InstanceType :=
  instanceTypes.find? (fun it => it.name == launchedInstanceType)

/-! ## Fleet launch model (`InstanceProvider.launchInstance` / `Create`) -/

/-- The parts of `ec2.CreateFleetOutput` that `launchInstance`
inspects: the per-offering launch errors and the (flattened) launched
instance ids. -/
structure CreateFleetOutput where
  fleetErrors : List CreateFleetError
  instanceIds : List String
deriving DecidableEq, Repr

/-- A key of the unavailable-offerings cache written by
`CacheUnavailable`: instance type, zone and capacity type of the
offering recorded as unavailable. -/
structure UnavailableOfferingKey where
  instanceType : String
  zone : String
  capacityType : String
deriving DecidableEq, Repr

/-- The caches that the launch path mutates: the launch-template-name
cache of `LaunchTemplateProvider` and the unavailable-offerings cache
of `InstanceTypeProvider`. -/
structure LaunchState where
  ltCache : List String
  uoCache : List UnavailableOfferingKey
deriving DecidableEq, Repr

/-- Method `LaunchTemplateProvider.Invalidate` applied to every launch
template name of the request's launch template configs. -/
def invalidateLaunchTemplates (cache ltNames : List String) : List String :=
  cache.filter (fun n => !ltNames.contains n)

/-- Method `InstanceProvider.updateUnavailableOfferingsCache`: record
every unfulfillable-capacity fleet error's offering for the request's
capacity type; other errors are ignored. -/
def updateUnavailableOfferingsCache (errs : List CreateFleetError)
    (capacityType : String) (cache : List UnavailableOfferingKey) :
    List UnavailableOfferingKey :=
  errs.foldl (fun c e =>
    if isUnfulfillableCapacity e then
      c ++ [⟨e.instanceType, e.zone, capacityType⟩]
    else c) cache

/-- Function `combineFleetErrors`: combines the fleet error codes into
one plain (non-AWS) error. -/
def combineFleetErrors (errs : List CreateFleetError) : AwsError :=
  .combined (errs.map (fun e => e.errorCode))

/-- Method `InstanceProvider.launchInstance`, after the launch
template configs were built (their names are `ltNames`). `resp` is the
outcome of the `CreateFleet` call. On a launch-template-not-found call
error every launch template name is invalidated; on a successful call
the unavailable-offerings cache is updated from the per-offering
errors and, when no instance was launched, the combined fleet error is
returned. -/
def launchInstance (resp : Except AwsError CreateFleetOutput)
    (ltNames : List String) (capacityType : String) (st : LaunchState) :
    Except AwsError String × LaunchState :=
  match resp with
  | .error e =>
    if isLaunchTemplateNotFound e then
      (.error e, { st with ltCache := invalidateLaunchTemplates st.ltCache ltNames })
    else (.error e, st)
  | .ok out =>
    let st2 := { st with
      uoCache := updateUnavailableOfferingsCache out.fleetErrors capacityType st.uoCache }
    match out.instanceIds with
    | [] => (.error (combineFleetErrors out.fleetErrors), st2)
    | id :: _ => (.ok id, st2)

/-- The result of the launch part of `InstanceProvider.Create`:
the final launch result, the cache state, and how many
`launchInstance` attempts were made. -/
structure CreateOutcome where
  result : Except AwsError String
  state : LaunchState
  attempts : Nat
deriving Repr

/-- The retry skeleton of `InstanceProvider.Create`: launch once and,
exactly when the error is launch-template-not-found, launch a second
time (the cache having been invalidated) and return that second result
without further retries. `resp1` and `resp2` are the `CreateFleet`
outcomes of the first and second attempts. -/
def createWithRetry (resp1 resp2 : Except AwsError CreateFleetOutput)
    (ltNames : List String) (capacityType : String) (st : LaunchState) :
    CreateOutcome :=
  let r1 := launchInstance resp1 ltNames capacityType st
  match r1.1 with
  | .ok id => { result := .ok id, state := r1.2, attempts := 1 }
  | .error e =>
    if isLaunchTemplateNotFound e then
      let r2 := launchInstance resp2 ltNames capacityType r1.2
      { result := r2.1, state := r2.2, attempts := 2 }
    else { result := .error e, state := r1.2, attempts := 1 }

/-- Method `InstanceProvider.Create` end to end for the purposes of
node conversion: prepare the instance-type options, run the launch
with its single retry, and on success convert the launched instance
(reported type `launchedType`) to a node; `.ok none` models the panic
inside `instanceToNode`. -/
def createInstance (instanceTypes : List InstanceType)
    (resp1 resp2 : Except AwsError CreateFleetOutput)
    (launchedType : String) (ltNames : List String) (capacityType : String)
    (st : LaunchState) : Except AwsError (Option InstanceType) :=
  let opts := createInstanceTypeOptions instanceTypes
  let o := createWithRetry resp1 resp2 ltNames capacityType st
  match o.result with
  | .error e => .error e
  | .ok _ => .ok (instanceToNode launchedType opts)

/-! ## Drift detection (pkg/cloudprovider/cloudprovider.go,
`CloudProvider.IsMachineDrifted` / `isAMIDrifted`) -/

/-- A requirement set, as an association of label keys to allowed
value lists. -/
def Reqs : Type := List (String × List String)

/-- Compatibility of two requirement sets: every key of the first that
is also constrained by the second must share an allowed value
(modelling `scheduling.Requirements.Compatible` for `In`
requirements). -/
def reqsCompatible (a b : List (String × List String)) : Bool :=
  a.all (fun kv =>
    match b.lookup kv.1 with
    | none => true
    | some ws => kv.2.any (fun v => ws.contains v))

/-- An AMI as returned by the AMI provider: its image id and the
requirements restricting which instance types it serves. -/
structure DriftAMI where
  amiID : String
  requirements : List (String × List String)
deriving DecidableEq, Repr

/-- An instance type as consulted by the drift path: its name and its
requirements. -/
structure DriftInstanceType where
  name : String
  requirements : List (String × List String)
deriving DecidableEq, Repr

/-- Modelled from the spec: `amifamily.MapInstanceTypes` is not part
of this source tree. Per the spec's drift description, the resolved
AMIs are restricted to those compatible with the machine's instance
type: each instance type is mapped to the first AMI whose requirements
it is compatible with, and the result is keyed by AMI id. -/
def MapInstanceTypes (amis : List DriftAMI)
    (instanceTypes : List DriftInstanceType) :
    List (String × DriftInstanceType) :=
  instanceTypes.foldl (fun acc it =>
    match amis.find? (fun ami => reqsCompatible it.requirements ami.requirements) with
    | some ami => acc ++ [(ami.amiID, it)]
    | none => acc) []

/-- Keys of the mapped-AMIs association (`lo.Keys(mappedAMIs)`). -/
def mappedAMIKeys (m : List (String × DriftInstanceType)) : List String :=
  m.map (fun kv => kv.1)

/-- The environment of one `IsMachineDrifted` evaluation: the results
of the Kubernetes and cloud calls it makes. Error payloads of
`provisionerGet` and `nodeTemplateGet` record whether the error is a
Kubernetes not-found error (swallowed by `client.IgnoreNotFound`). -/
structure DriftEnv where
  provisionerGet : Except Bool (Option String)
  nodeTemplateGet : Except Bool Unit
  launchTemplateName : Option String
  instanceTypesResult : Except Unit (List DriftInstanceType)
  machineInstanceType : String
  amisResult : Except Unit (List DriftAMI)
  instanceImage : Except Unit String

/-- Result of `IsMachineDrifted`: `ok drifted` is a nil-error return
with the given boolean, `err` is any `(false, non-nil error)` return. -/
inductive DriftResult where
  | ok (drifted : Bool)
  | err
deriving DecidableEq, Repr

/-- Method `CloudProvider.isAMIDrifted`: find the machine's instance
type among the provisioner's instance types; report no drift when the
node template names a literal launch template; otherwise resolve the
AMIs, restrict them to the node's instance type, and report drift
exactly when the instance's image id is not among the mapped AMI
ids. -/
def isAMIDrifted (env : DriftEnv) : DriftResult :=
  match env.instanceTypesResult with
  | .error _ => .err
  | .ok instanceTypes =>
    match instanceTypes.find? (fun it => it.name == env.machineInstanceType) with
    | none => .err
    | some nodeInstanceType =>
      if env.launchTemplateName.isSome then .ok false
      else
        match env.amisResult with
        | .error _ => .err
        | .ok amis =>
          let mappedAMIs := MapInstanceTypes amis [nodeInstanceType]
          if mappedAMIs.isEmpty then .err
          else
            match env.instanceImage with
            | .error _ => .err
            | .ok imageID => .ok (!(mappedAMIKeys mappedAMIs).contains imageID)

/-- Method `CloudProvider.IsMachineDrifted`: fetch the owning
provisioner (a not-found error is swallowed, yielding no drift),
report no drift when it has no provider reference, resolve the node
template (not-found swallowed likewise) and delegate to
`isAMIDrifted`. -/
def IsMachineDrifted (env : DriftEnv) : DriftResult :=
  match env.provisionerGet with
  | .error isNF => if isNF then .ok false else .err
  | .ok none => .ok false
  | .ok (some _) =>
    match env.nodeTemplateGet with
    | .error isNF => if isNF then .ok false else .err
    | .ok _ => isAMIDrifted env

/-! ## Spec-modelled disruption engine pieces

The disruption engine (budget calculator, consolidation planner,
termination state machine) is implemented in karpenter-core, which is
not part of this source tree; only the repository's disruption
documentation describes it. The following definitions are modelled
from that documentation and the spec. -/

/-- A voluntary disruption reason. -/
inductive DisruptionReason where
  | drifted
  | underutilized
  | empty
deriving DecidableEq, Repr

/-- The `nodes` field of a disruption budget: an absolute count or a
percentage. -/
inductive BudgetNodes where
  | absolute (n : Nat)
  | percent (p : Nat)
deriving DecidableEq, Repr

/-- Modelled from the spec: a NodePool disruption budget. `reasons`
empty means the budget applies to all reasons; `activeAt t` decides
whether the budget's cron schedule window contains time `t` (constantly
true when no schedule is set). The budget-calculator code lives in
karpenter-core, outside this tree. -/
structure DisruptionBudget where
  nodes : BudgetNodes
  reasons : List DisruptionReason
  activeAt : Nat → Bool

/-- Modelled from the spec: the single default budget `nodes: 10%`
applied to all reasons when a pool defines no budgets. -/
def defaultBudget : DisruptionBudget :=
  { nodes := .percent 10, reasons := [], activeAt := fun _ => true }

/-- A budget applies to reason `r` when its reasons list is empty or
contains `r`. -/
def budgetApplies (b : DisruptionBudget) (r : DisruptionReason) : Bool :=
  b.reasons.isEmpty || b.reasons.contains r

/-- Ceiling of `total * p / 100` on naturals: `ceil(total × pct)` for
a percentage budget value `p`. -/
def ceilPercent (total p : Nat) : Nat := (total * p + 99) / 100

/-- The unclamped allowed-disruptions value of one budget:
`ceil(total_pool_nodes × pct) − (deleting + notReady)` for a
percentage budget, `absolute − (deleting + notReady)` otherwise. -/
def rawAllowed (b : DisruptionBudget) (total deleting notReady : Nat) : Int :=
  (match b.nodes with
   | .absolute n => (n : Int)
   | .percent p => (ceilPercent total p : Int)) - ((deleting + notReady : Nat) : Int)

/-- The per-budget allowed value as computed by the calculator, clamped
to be non-negative. -/
def budgetAllowed (b : DisruptionBudget) (total deleting notReady : Nat) : Int :=
  max 0 (rawAllowed b total deleting notReady)

/-- Iteration of the budget calculator over the pool's budgets,
tracking the minimum of the active budgets' allowed values (`none`
while no active budget has been seen). -/
def allowedDisruptionsAux (r : DisruptionReason) (t total deleting notReady : Nat) :
    List DisruptionBudget → Option Int → Option Int
  | [], acc => acc
  | b :: rest, acc =>
    if budgetApplies b r && b.activeAt t then
      let a := budgetAllowed b total deleting notReady
      allowedDisruptionsAux r t total deleting notReady rest
        (some (match acc with
               | none => a
               | some m => min m a))
    else allowedDisruptionsAux r t total deleting notReady rest acc

/-- Modelled from the spec: the budget calculator for a pool with
budget list `budgets` (defaulted to the single 10% budget when empty),
reason `r` and time `t`, over a pool with `total` nodes of which
`deleting` are being deleted and `notReady` are not ready. Returns
`none` when no budget is active (no constraint). -/
def allowedDisruptions (budgets : List DisruptionBudget) (r : DisruptionReason)
    (t total deleting notReady : Nat) : Option Int :=
  let bs := if budgets.isEmpty then [defaultBudget] else budgets
  allowedDisruptionsAux r t total deleting notReady bs none

/-- Minimum of a list of integers, `none` on the empty list. -/
def listMinInt : List Int → Option Int
  | [] => none
  | a :: l =>
    some (match listMinInt l with
          | none => a
          | some m => min a m)

/-- The budgets of a pool that are active for reason `r` at time `t`. -/
def activeBudgets (budgets : List DisruptionBudget) (r : DisruptionReason)
    (t : Nat) : List DisruptionBudget :=
  budgets.filter (fun b => budgetApplies b r && b.activeAt t)

/-! ## Spec-modelled consolidation spot-to-spot rule -/

/-- Modelled from the spec: `SPOT_FLEX_MIN`, the minimum instance type
flexibility required for single-node spot-to-spot consolidation
replacements (default 15). The consolidation planner lives in
karpenter-core, outside this tree. -/
def minSpotFlexibility : Nat := 15

/-- A replacement instance-type option considered by the consolidation
planner: name, offering price (scaled to an integer) and capacity
type. -/
structure ReplacementOption where
  name : String
  price : Nat
  capacityType : String
deriving DecidableEq, Repr

/-- Modelled from the spec: the single-node price filter — replacement
options are restricted to instance types strictly cheaper than the
candidate's current offering. -/
def filterCheaperOptions (candidatePrice : Nat)
    (opts : List ReplacementOption) : List ReplacementOption :=
  opts.filter (fun o => o.price < candidatePrice)

/-- A consolidation Replace decision: either a replacement launch with
the instance-type options offered to the cloud adapter, or no
action. -/
inductive ConsolidationDecision where
  | replace (options : List ReplacementOption)
  | notPossible
deriving DecidableEq, Repr

/-- Modelled from the spec: the planner's Replace gate. Given the
number of candidate nodes being removed, the removed and replacement
capacity types and the post-filter options, a replacement is emitted
unless no option remains, or the replacement is a single-node
spot-to-spot one with fewer than `minSpotFlexibility` options.
Multi-node replacements are exempt from the minimum. -/
def consolidationReplace (numCandidates : Nat)
    (removedCT replacementCT : String)
    (filteredOptions : List ReplacementOption) : ConsolidationDecision :=
  if filteredOptions.isEmpty then .notPossible
  else if removedCT == capacityTypeSpot && replacementCT == capacityTypeSpot
       && numCandidates == 1 && filteredOptions.length < minSpotFlexibility then
    .notPossible
  else .replace filteredOptions

/-! ## Spec-modelled termination grace handling -/

/-- The per-pod data the termination state machine consults while
draining: the pod's own `terminationGracePeriodSeconds` and whether it
is blocked by a PDB or carries the do-not-disrupt annotation. -/
structure DrainPod where
  tgps : Nat
  blockedByPDB : Bool
  doNotDisrupt : Bool
deriving DecidableEq, Repr

/-- Modelled from the spec: the termination state machine
(karpenter-core) force-deletes a still-present pod at
`drainStart + (terminationGracePeriod − pod.terminationGracePeriodSeconds)`
(clamped at `drainStart` when the pod's grace exceeds the node's, so
the pod is deleted as soon as the node begins to drain). -/
def podForceDeleteTime (drainStart nodeTGP : Nat) (p : DrainPod) : Nat :=
  drainStart + (nodeTGP - p.tgps)

/-- Whether a pod still on the node has been force-deleted by time
`t`. Every remaining pod is deleted, regardless of PDBs or the
do-not-disrupt annotation. -/
def podForceDeletedBy (drainStart nodeTGP t : Nat) (p : DrainPod) : Bool :=
  decide (podForceDeleteTime drainStart nodeTGP p ≤ t)

/-- Modelled from the spec: the instant the node's grace expires and
the instance is terminated at the latest. -/
def instanceTerminateDeadline (drainStart nodeTGP : Nat) : Nat :=
  drainStart + nodeTGP

/-- Modelled from the spec: the instance is terminated when all
evictable pods are gone (`drainedAt`) or when the node's grace
expires, whichever comes first. -/
def nodeTerminateTime (drainStart nodeTGP drainedAt : Nat) : Nat :=
  min drainedAt (instanceTerminateDeadline drainStart nodeTGP)

/-! ## Helper lemmas -/

/-- Combination of an optional running minimum with an optional
minimum of a remainder. -/
def optMin : Option Int → Option Int → Option Int
  | none, y => y
  | some m, none => some m
  | some m, some x => some (min m x)

theorem optMin_none_right (x : Option Int) : optMin x none = x := by
  cases x <;> rfl

theorem allowedDisruptionsAux_eq (r : DisruptionReason)
    (t total deleting notReady : Nat) (l : List DisruptionBudget) :
    ∀ acc : Option Int,
      allowedDisruptionsAux r t total deleting notReady l acc =
        optMin acc (listMinInt ((activeBudgets l r t).map
          (fun b => budgetAllowed b total deleting notReady))) := by
  induction l with
  | nil =>
    intro acc
    simp [allowedDisruptionsAux, activeBudgets, listMinInt, optMin_none_right]
  | cons b rest ih =>
    intro acc
    by_cases hp : (budgetApplies b r && b.activeAt t) = true
    · rw [show allowedDisruptionsAux r t total deleting notReady (b :: rest) acc =
          allowedDisruptionsAux r t total deleting notReady rest
            (some (match acc with
                   | none => budgetAllowed b total deleting notReady
                   | some m => min m (budgetAllowed b total deleting notReady))) by
        simp [allowedDisruptionsAux, hp]]
      rw [ih]
      rw [show activeBudgets (b :: rest) r t = b :: activeBudgets rest r t by
        simp [activeBudgets, List.filter_cons, hp]]
      cases acc with
      | none =>
        cases h : listMinInt ((activeBudgets rest r t).map
            (fun b => budgetAllowed b total deleting notReady)) with
        | none => simp [optMin, listMinInt, h]
        | some m => simp [optMin, listMinInt, h]
      | some m0 =>
        cases h : listMinInt ((activeBudgets rest r t).map
            (fun b => budgetAllowed b total deleting notReady)) with
        | none => simp [optMin, listMinInt, h]
        | some m =>
          simp [optMin, listMinInt, h, min_assoc]
    · rw [show allowedDisruptionsAux r t total deleting notReady (b :: rest) acc =
          allowedDisruptionsAux r t total deleting notReady rest acc by
        simp [allowedDisruptionsAux, hp]]
      rw [ih]
      rw [show activeBudgets (b :: rest) r t = activeBudgets rest r t by
        simp [activeBudgets, List.filter_cons, hp]]

theorem listMinInt_map_clamp (l : List Int) :
    listMinInt (l.map (fun x => max 0 x)) =
      (listMinInt l).map (fun x => max 0 x) := by
  induction l with
  | nil => rfl
  | cons a rest ih =>
    cases h : listMinInt rest with
    | none =>
      simp [listMinInt, ih, h]
    | some m =>
      simp only [List.map_cons, listMinInt, ih, h, Option.map_some']
      rw [max_min_distrib_left]

theorem mem_updateUnavailableOfferingsCache (errs : List CreateFleetError)
    (ct : String) :
    ∀ (cache : List UnavailableOfferingKey) (k : UnavailableOfferingKey),
      k ∈ updateUnavailableOfferingsCache errs ct cache ↔
        k ∈ cache ∨ ∃ e ∈ errs, isUnfulfillableCapacity e = true ∧
          k = ⟨e.instanceType, e.zone, ct⟩ := by
  induction errs with
  | nil =>
    intro cache k
    simp [updateUnavailableOfferingsCache]
  | cons e rest ih =>
    intro cache k
    rw [show updateUnavailableOfferingsCache (e :: rest) ct cache =
        updateUnavailableOfferingsCache rest ct
          (if isUnfulfillableCapacity e then
            cache ++ [⟨e.instanceType, e.zone, ct⟩] else cache) from rfl]
    by_cases hu : isUnfulfillableCapacity e = true
    · rw [if_pos hu, ih]
      simp only [List.mem_append, List.mem_singleton, List.mem_cons,
        List.not_mem_nil, or_false]
      constructor
      · rintro ((hc | hk) | ⟨e2, he2, hu2, hk2⟩)
        · exact Or.inl hc
        · exact Or.inr ⟨e, Or.inl rfl, hu, hk⟩
        · exact Or.inr ⟨e2, Or.inr he2, hu2, hk2⟩
      · rintro (hc | ⟨e2, (rfl | he2), hu2, hk2⟩)
        · exact Or.inl (Or.inl hc)
        · exact Or.inl (Or.inr hk2)
        · exact Or.inr ⟨e2, he2, hu2, hk2⟩
    · rw [if_neg hu, ih]
      simp only [List.mem_cons]
      constructor
      · rintro (hc | ⟨e2, he2, hu2, hk2⟩)
        · exact Or.inl hc
        · exact Or.inr ⟨e2, Or.inr he2, hu2, hk2⟩
      · rintro (hc | ⟨e2, (rfl | he2), hu2, hk2⟩)
        · exact Or.inl hc
        · exact absurd hu2 hu
        · exact Or.inr ⟨e2, he2, hu2, hk2⟩

/-! ## Claim theorems -/

/-- C1: for every pool, reason in {Drifted, Underutilized, Empty} and
time t, the budget calculator returns the minimum over the budgets
active at t of `allowed`, where `allowed` is
`ceil(total_pool_nodes × pct) − (deleting + notReady)` for a
percentage budget and `absolute − (deleting + notReady)` for an
absolute budget, clamped to be ≥ 0; when the pool defines no budgets
the result equals that of a single default 10% budget applying to all
reasons (and, as in scenario S2, a 20% budget over 19 nodes allows
`ceil(19 × 0.2) = 4` disruptions). -/
theorem C1_budget_calculator (budgets : List DisruptionBudget)
    (r : DisruptionReason) (t total deleting notReady : Nat) :
    allowedDisruptions budgets r t total deleting notReady =
      (listMinInt ((activeBudgets
          (if budgets.isEmpty then [defaultBudget] else budgets) r t).map
        (fun b => rawAllowed b total deleting notReady))).map
          (fun m => max 0 m)
    ∧ allowedDisruptions [] r t total deleting notReady =
        allowedDisruptions [defaultBudget] r t total deleting notReady
    ∧ allowedDisruptions
        [{ nodes := .percent 20, reasons := [.empty, .drifted],
           activeAt := fun _ => true }] .drifted t 19 0 0 = some 4 := by
  refine ⟨?_, ?_, ?_⟩
  · rw [show allowedDisruptions budgets r t total deleting notReady =
        allowedDisruptionsAux r t total deleting notReady
          (if budgets.isEmpty then [defaultBudget] else budgets) none from rfl]
    rw [allowedDisruptionsAux_eq]
    rw [show optMin none (listMinInt ((activeBudgets
        (if budgets.isEmpty then [defaultBudget] else budgets) r t).map
        (fun b => budgetAllowed b total deleting notReady))) =
      listMinInt ((activeBudgets
        (if budgets.isEmpty then [defaultBudget] else budgets) r t).map
        (fun b => budgetAllowed b total deleting notReady)) from rfl]
    rw [show ((activeBudgets
        (if budgets.isEmpty then [defaultBudget] else budgets) r t).map
        (fun b => budgetAllowed b total deleting notReady)) =
      (((activeBudgets
        (if budgets.isEmpty then [defaultBudget] else budgets) r t).map
        (fun b => rawAllowed b total deleting notReady)).map
        (fun x => max 0 x)) by
      simp [budgetAllowed]]
    exact listMinInt_map_clamp _
  · rfl
  · rfl

/-- C2: for every single-node consolidation Replace decision in which
both the removed node's capacity type and the replacement's capacity
type are spot, the set of instance-type options offered to the cloud
adapter for the replacement launch has cardinality at least
`minSpotFlexibility` (15); this applies in particular to the
price-filtered option set, while multi-node (N-to-1) spot-to-spot
replacements are exempt from the minimum. -/
theorem C2_spot_to_spot_flexibility (numCandidates : Nat)
    (removedCT replacementCT : String) (opts : List ReplacementOption) :
    (∀ res, consolidationReplace numCandidates removedCT replacementCT opts =
        .replace res →
      removedCT = capacityTypeSpot → replacementCT = capacityTypeSpot →
      numCandidates = 1 → minSpotFlexibility ≤ res.length)
    ∧ (∀ (candidatePrice : Nat) (allOpts : List ReplacementOption) (res : List ReplacementOption),
        consolidationReplace 1 capacityTypeSpot capacityTypeSpot
          (filterCheaperOptions candidatePrice allOpts) = .replace res →
        minSpotFlexibility ≤ res.length)
    ∧ (2 ≤ numCandidates → opts ≠ [] →
        consolidationReplace numCandidates removedCT replacementCT opts =
          .replace opts) := by
  have key : ∀ (n : Nat) (rct cct : String) (os res : List ReplacementOption),
      consolidationReplace n rct cct os = .replace res →
      rct = capacityTypeSpot → cct = capacityTypeSpot → n = 1 →
      minSpotFlexibility ≤ res.length := by
    intro n rct cct os res h hr hc hn
    subst hr; subst hc; subst hn
    unfold consolidationReplace at h
    by_cases he : os.isEmpty
    · rw [if_pos he] at h; exact absurd h (by simp)
    · rw [if_neg he] at h
      by_cases hlen : os.length < minSpotFlexibility
      · rw [if_pos (by simp [hlen])] at h
        exact absurd h (by simp)
      · rw [if_neg (by simp [hlen])] at h
        have : os = res := by
          have := h; cases this; rfl
        subst this
        omega
  refine ⟨fun res h hr hc hn => key _ _ _ _ _ h hr hc hn,
          fun price allOpts res h => key _ _ _ _ _ h rfl rfl rfl, ?_⟩
  intro hn hne
  unfold consolidationReplace
  rw [if_neg (by simpa [List.isEmpty_iff] using hne)]
  rw [if_neg ?_]
  simp only [Bool.and_eq_true, decide_eq_true_eq, Nat.lt_iff_add_one_le,
    Bool.not_eq_true]
  intro hcontra
  have h1 : (numCandidates == 1) = true := by
    rcases hcontra with ⟨⟨⟨_, _⟩, h1⟩, _⟩
    exact h1
  have : numCandidates = 1 := by simpa using h1
  omega

/-- Witness for C2: a single-node spot-to-spot replacement that is
emitted has at least 15 options (here exactly 15), and a two-node
spot-to-spot replacement is emitted from a single option. -/
theorem C2_spot_to_spot_flexibility_witness :
    minSpotFlexibility ≤
      ((List.range 15).map (fun i => (⟨"m", i, "spot"⟩ : ReplacementOption))).length
    ∧ consolidationReplace 2 capacityTypeSpot capacityTypeSpot
        [⟨"m", 1, "spot"⟩] = .replace [⟨"m", 1, "spot"⟩] := by
  refine ⟨?_, ?_⟩
  · exact (C2_spot_to_spot_flexibility 1 capacityTypeSpot capacityTypeSpot
      ((List.range 15).map (fun i => (⟨"m", i, "spot"⟩ : ReplacementOption)))).1
      _ (by decide) rfl rfl rfl
  · exact (C2_spot_to_spot_flexibility 2 capacityTypeSpot capacityTypeSpot
      [⟨"m", 1, "spot"⟩]).2.2 (by decide) (by decide)

/-- C3: for a node draining with a configured terminationGracePeriod,
a pod still on the node at
`drainStart + (terminationGracePeriod − pod.terminationGracePeriodSeconds)`
is force-deleted at that time regardless of PDBs or the do-not-disrupt
annotation; the grace the pod receives before the node's deadline is
`min(pod grace, node grace)` (its own grace when it fits, truncated to
the node's limit otherwise); the instance is terminated no later than
`drainStart + terminationGracePeriod`; and in scenario S5 the
force-delete lands at 3300 s for a 1 h node grace and 300 s pod
grace. -/
theorem C3_termination_grace_period (drainStart nodeTGP drainedAt : Nat)
    (p : DrainPod) :
    podForceDeletedBy drainStart nodeTGP
        (podForceDeleteTime drainStart nodeTGP p) p = true
    ∧ (∀ b1 b2 : Bool, podForceDeleteTime drainStart nodeTGP
        { tgps := p.tgps, blockedByPDB := b1, doNotDisrupt := b2 } =
        podForceDeleteTime drainStart nodeTGP p)
    ∧ instanceTerminateDeadline drainStart nodeTGP -
        podForceDeleteTime drainStart nodeTGP p = min p.tgps nodeTGP
    ∧ nodeTerminateTime drainStart nodeTGP drainedAt ≤
        instanceTerminateDeadline drainStart nodeTGP
    ∧ podForceDeleteTime 0 3600
        { tgps := 300, blockedByPDB := true, doNotDisrupt := true } = 3300 := by
  refine ⟨?_, fun b1 b2 => rfl, ?_, ?_, rfl⟩
  · simp [podForceDeletedBy]
  · simp only [instanceTerminateDeadline, podForceDeleteTime]
    omega
  · simp only [nodeTerminateTime]
    exact min_le_right _ _

/-- C4: when the cloud instance no longer exists — the terminate call
reports a not-found error code, or the follow-up describe shows the
instance missing (no instance returned, or a not-found describe error)
or already in the terminated state — `InstanceProvider.Terminate`
returns nil; and a terminate call whose EC2 request succeeds also
returns nil, so repeated terminate calls are no-ops. -/
theorem C4_terminate_idempotent (e : AwsError) (d : DescribeInstancesResult)
    (conv : Bool) :
    (isNotFound e = true → Terminate true (some e) d conv = none)
    ∧ (d.apiError = none → d.instances = [] →
        Terminate true (some e) d conv = none)
    ∧ (∀ i, d.apiError = none → d.instances = [i] →
        i.state = instanceStateNameTerminated →
        Terminate true (some e) d conv = none)
    ∧ (∀ nf, d.apiError = some nf → isNotFound nf = true →
        Terminate true (some e) d conv = none)
    ∧ Terminate true none d conv = none := by
  refine ⟨?_, ?_, ?_, ?_, rfl⟩
  · intro h
    simp [Terminate, h]
  · intro ha hi
    by_cases he : isNotFound e = true
    · simp [Terminate, he]
    · simp [Terminate, he, getInstance, ha, hi, isInstanceTerminated]
  · intro i ha hi hstate
    by_cases he : isNotFound e = true
    · simp [Terminate, he]
    · simp [Terminate, he, getInstance, ha, hi, hstate, isInstanceTerminated]
  · intro nf ha hnf
    by_cases he : isNotFound e = true
    · simp [Terminate, he]
    · simp [Terminate, he, getInstance, ha, hnf]

/-- Witness for C4 at concrete inputs: a not-found terminate error, a
non-AWS terminate error whose follow-up describe returns no instance,
one whose describe shows the terminated state, and a successful
terminate call. -/
theorem C4_terminate_idempotent_witness :
    Terminate true (some (.awsCode "InvalidInstanceID.NotFound"))
      ⟨none, []⟩ false = none
    ∧ Terminate true (some (.other "rate limited")) ⟨none, []⟩ false = none
    ∧ Terminate true (some (.other "rate limited"))
        ⟨none, [⟨instanceStateNameTerminated, "ip-192-168-0-1"⟩]⟩ false = none
    ∧ Terminate true none ⟨none, []⟩ false = none := by
  refine ⟨?_, ?_, ?_, ?_⟩
  · exact (C4_terminate_idempotent _ _ _).1 (by decide)
  · exact (C4_terminate_idempotent _ ⟨none, []⟩ _).2.1 rfl rfl
  · exact (C4_terminate_idempotent (.other "rate limited") _ _).2.2.1 _ rfl rfl rfl
  · exact (C4_terminate_idempotent (.other "rate limited") ⟨none, []⟩ false).2.2.2.2

/-- C5: when a launch attempt fails with a launch-template-not-found
error, `InstanceProvider.Create` invalidates the cached launch
template names of the request and retries the launch exactly once,
returning the second attempt's result (error included) without further
retries; no code path of `Create` makes more than two launch
attempts. -/
theorem C5_stale_launch_template_retry
    (resp2 : Except AwsError CreateFleetOutput) (e : AwsError)
    (ltNames : List String) (ct : String) (st : LaunchState)
    (hltnf : isLaunchTemplateNotFound e = true) :
    (createWithRetry (.error e) resp2 ltNames ct st).attempts = 2
    ∧ (createWithRetry (.error e) resp2 ltNames ct st).result =
        (launchInstance resp2 ltNames ct
          { st with ltCache := invalidateLaunchTemplates st.ltCache ltNames }).1
    ∧ (∀ n, n ∈ ltNames → n ∉ invalidateLaunchTemplates st.ltCache ltNames)
    ∧ (∀ r1 r2 : Except AwsError CreateFleetOutput,
        (createWithRetry r1 r2 ltNames ct st).attempts ≤ 2) := by
  have hfirst : launchInstance (.error e) ltNames ct st =
      (.error e, { st with ltCache := invalidateLaunchTemplates st.ltCache ltNames }) := by
    simp [launchInstance, hltnf]
  refine ⟨?_, ?_, ?_, ?_⟩
  · simp [createWithRetry, hfirst, hltnf]
  · simp [createWithRetry, hfirst, hltnf]
  · intro n hn
    simp only [invalidateLaunchTemplates, List.mem_filter]
    rintro ⟨-, hcon⟩
    simp [hn] at hcon
  · intro r1 r2
    unfold createWithRetry
    cases h1 : (launchInstance r1 ltNames ct st).1 with
    | ok id => simp [h1]
    | error e1 =>
      by_cases h2 : isLaunchTemplateNotFound e1 = true
      · simp [h1, h2]
      · simp [h1, h2]

/-- Witness for C5: a first attempt failing with the
launch-template-not-found code retries once, the cached name is
invalidated, and the second attempt's error is returned as is. -/
theorem C5_stale_launch_template_retry_witness :
    (createWithRetry (.error (.awsCode launchTemplateNotFoundCode))
        (.error (.other "still failing")) ["karpenter-lt"] "on-demand"
        ⟨["karpenter-lt"], []⟩).attempts = 2
    ∧ (createWithRetry (.error (.awsCode launchTemplateNotFoundCode))
        (.error (.other "still failing")) ["karpenter-lt"] "on-demand"
        ⟨["karpenter-lt"], []⟩).result = .error (.other "still failing") := by
  have h := C5_stale_launch_template_retry (.error (.other "still failing"))
    (.awsCode launchTemplateNotFoundCode) ["karpenter-lt"] "on-demand"
    ⟨["karpenter-lt"], []⟩ (by decide)
  exact ⟨h.1, by rw [h.2.1]; rfl⟩

/-- C6: a CreateFleet per-offering launch error is recorded in the
unavailable-offerings cache for the request's capacity type exactly
when its error code is one of the unfulfillable-capacity codes
(InsufficientInstanceCapacity, MaxSpotInstanceCountExceeded,
VcpuLimitExceeded, UnfulfillableCapacity, Unsupported); errors with
other codes are not cached; and a fleet response that launched no
instance still updates the cache while causing no in-attempt retry
(a single launch attempt). -/
theorem C6_unfulfillable_capacity_cached (errs : List CreateFleetError)
    (ct : String) (cache : List UnavailableOfferingKey)
    (k : UnavailableOfferingKey) :
    (k ∈ updateUnavailableOfferingsCache errs ct cache ↔
      k ∈ cache ∨ ∃ e ∈ errs, isUnfulfillableCapacity e = true ∧
        k = ⟨e.instanceType, e.zone, ct⟩)
    ∧ (∀ e : CreateFleetError, isUnfulfillableCapacity e = true ↔
        e.errorCode ∈ ["InsufficientInstanceCapacity",
          "MaxSpotInstanceCountExceeded", "VcpuLimitExceeded",
          "UnfulfillableCapacity", "Unsupported"])
    ∧ (∀ (out : CreateFleetOutput) (resp2 : Except AwsError CreateFleetOutput)
        (lt : List String) (st : LaunchState),
        out.instanceIds = [] →
        (createWithRetry (.ok out) resp2 lt ct st).attempts = 1
        ∧ (createWithRetry (.ok out) resp2 lt ct st).state.uoCache =
            updateUnavailableOfferingsCache out.fleetErrors ct st.uoCache) := by
  refine ⟨mem_updateUnavailableOfferingsCache errs ct cache k, ?_, ?_⟩
  · intro e
    rw [show isUnfulfillableCapacity e =
      unfulfillableCapacityErrorCodes.contains e.errorCode from rfl]
    rw [show (unfulfillableCapacityErrorCodes.contains e.errorCode) =
      unfulfillableCapacityErrorCodes.elem e.errorCode from rfl]
    rw [List.elem_iff]
    rfl
  · intro out resp2 lt st hempty
    have hlaunch : launchInstance (.ok out) lt ct st =
        (.error (combineFleetErrors out.fleetErrors),
         { st with uoCache :=
            updateUnavailableOfferingsCache out.fleetErrors ct st.uoCache }) := by
      simp [launchInstance, hempty]
    constructor
    · simp [createWithRetry, hlaunch, isLaunchTemplateNotFound, combineFleetErrors]
    · simp [createWithRetry, hlaunch, isLaunchTemplateNotFound, combineFleetErrors]

/-- Witness for C6: an InsufficientInstanceCapacity fleet error is
cached for the request's capacity type, an AccessDenied one is not,
and an instance-less fleet response makes exactly one attempt. -/
theorem C6_unfulfillable_capacity_cached_witness :
    (⟨"m5.large", "us-east-1a", "spot"⟩ : UnavailableOfferingKey) ∈
      updateUnavailableOfferingsCache
        [⟨"InsufficientInstanceCapacity", "m5.large", "us-east-1a"⟩,
         ⟨"AccessDenied", "m5.xlarge", "us-east-1b"⟩] "spot" []
    ∧ (⟨"m5.xlarge", "us-east-1b", "spot"⟩ : UnavailableOfferingKey) ∉
      updateUnavailableOfferingsCache
        [⟨"InsufficientInstanceCapacity", "m5.large", "us-east-1a"⟩,
         ⟨"AccessDenied", "m5.xlarge", "us-east-1b"⟩] "spot" []
    ∧ (createWithRetry
        (.ok ⟨[⟨"InsufficientInstanceCapacity", "m5.large", "us-east-1a"⟩], []⟩)
        (.ok ⟨[], ["i-123"]⟩) ["lt"] "spot" ⟨[], []⟩).attempts = 1 := by
  refine ⟨?_, ?_, ?_⟩
  · exact (C6_unfulfillable_capacity_cached _ "spot" [] _).1.mpr
      (Or.inr ⟨⟨"InsufficientInstanceCapacity", "m5.large", "us-east-1a"⟩,
        by decide, by decide, rfl⟩)
  · intro hmem
    have h := (C6_unfulfillable_capacity_cached _ "spot" [] _).1.mp hmem
    rcases h with hc | ⟨e, he, hu, hk⟩
    · exact absurd hc (by decide)
    · simp only [List.mem_cons, List.not_mem_nil, or_false] at he
      rcases he with rfl | rfl
      · exact absurd hk (by decide)
      · exact absurd hu (by decide)
  · exact ((C6_unfulfillable_capacity_cached [] "spot" [] ⟨"", "", ""⟩).2.2
      ⟨[⟨"InsufficientInstanceCapacity", "m5.large", "us-east-1a"⟩], []⟩
      (.ok ⟨[], ["i-123"]⟩) ["lt"] ⟨[], []⟩ rfl).1

/-- C7: the instance-type options used in the fleet launch request of
`InstanceProvider.Create` number at most `MaxInstanceTypes` (20): the
prioritized option list is truncated to its first 20 elements before
the launch is attempted. -/
theorem C7_max_instance_types (instanceTypes : List InstanceType) :
    (createInstanceTypeOptions instanceTypes).length ≤ MaxInstanceTypes
    ∧ createInstanceTypeOptions instanceTypes =
        (prioritizeInstanceTypes instanceTypes).take MaxInstanceTypes := by
  unfold createInstanceTypeOptions
  by_cases h : (prioritizeInstanceTypes instanceTypes).length > MaxInstanceTypes
  · rw [if_pos h]
    refine ⟨?_, rfl⟩
    rw [List.length_take]
    omega
  · rw [if_neg h]
    have hle : (prioritizeInstanceTypes instanceTypes).length ≤ MaxInstanceTypes := by
      omega
    exact ⟨hle, (List.take_of_length_le hle).symm⟩

/-- C8: for a machine whose owning provisioner references a node
template (and whose lookups succeed), `IsMachineDrifted` reports drift
exactly when the machine's image id is not among the AMIs the
template's image selector resolves to, restricted to AMIs compatible
with the machine's instance type; and it reports no drift whenever the
node template specifies a literal launch template name. -/
theorem C8_is_machine_drifted (env : DriftEnv) (ref : String)
    (its : List DriftInstanceType) (nodeIT : DriftInstanceType)
    (amis : List DriftAMI) (imageID : String)
    (hprov : env.provisionerGet = .ok (some ref))
    (hnt : env.nodeTemplateGet = .ok ())
    (hits : env.instanceTypesResult = .ok its)
    (hfind : its.find? (fun it => it.name == env.machineInstanceType) = some nodeIT)
    (hamis : env.amisResult = .ok amis)
    (himg : env.instanceImage = .ok imageID) :
    (env.launchTemplateName = none →
      MapInstanceTypes amis [nodeIT] ≠ [] →
      IsMachineDrifted env =
        .ok (!(mappedAMIKeys (MapInstanceTypes amis [nodeIT])).contains imageID)
      ∧ (IsMachineDrifted env = .ok true ↔
          imageID ∉ mappedAMIKeys (MapInstanceTypes amis [nodeIT])))
    ∧ (∀ lt, env.launchTemplateName = some lt →
        IsMachineDrifted env = .ok false) := by
  constructor
  · intro hlt hne
    have hempty : (MapInstanceTypes amis [nodeIT]).isEmpty = false := by
      cases hmap : MapInstanceTypes amis [nodeIT] with
      | nil => exact absurd hmap hne
      | cons a l => rfl
    have hmain : IsMachineDrifted env =
        .ok (!(mappedAMIKeys (MapInstanceTypes amis [nodeIT])).contains imageID) := by
      simp [IsMachineDrifted, hprov, hnt, isAMIDrifted, hits, hfind, hlt,
        hamis, hempty, himg]
    refine ⟨hmain, ?_⟩
    rw [hmain]
    simp
  · intro lt hlt
    simp [IsMachineDrifted, hprov, hnt, isAMIDrifted, hits, hfind, hlt]

/-- A concrete drift environment for the C8 witness: one instance
type, one compatible AMI `ami-abc`, and an instance running
`ami-xyz`. -/
def driftEnvExample : DriftEnv :=
  { provisionerGet := .ok (some "default")
    nodeTemplateGet := .ok ()
    launchTemplateName := none
    instanceTypesResult := .ok [⟨"m5.large", [("kubernetes.io/arch", ["amd64"])]⟩]
    machineInstanceType := "m5.large"
    amisResult := .ok [⟨"ami-abc", [("kubernetes.io/arch", ["amd64"])]⟩]
    instanceImage := .ok "ami-xyz" }

/-- Witness for C8: in `driftEnvExample` the machine's image `ami-xyz`
is not among the resolved AMIs, so drift is reported; with a literal
launch template name instead, no drift is reported. -/
theorem C8_is_machine_drifted_witness :
    IsMachineDrifted driftEnvExample = .ok true
    ∧ IsMachineDrifted
        { driftEnvExample with launchTemplateName := some "my-lt" } = .ok false := by
  constructor
  · exact ((C8_is_machine_drifted driftEnvExample "default"
      [⟨"m5.large", [("kubernetes.io/arch", ["amd64"])]⟩]
      ⟨"m5.large", [("kubernetes.io/arch", ["amd64"])]⟩
      [⟨"ami-abc", [("kubernetes.io/arch", ["amd64"])]⟩] "ami-xyz"
      rfl rfl rfl (by decide) rfl rfl).1 rfl (by decide)).2.mpr (by decide)
  · exact (C8_is_machine_drifted
      { driftEnvExample with launchTemplateName := some "my-lt" } "default"
      [⟨"m5.large", [("kubernetes.io/arch", ["amd64"])]⟩]
      ⟨"m5.large", [("kubernetes.io/arch", ["amd64"])]⟩
      [⟨"ami-abc", [("kubernetes.io/arch", ["amd64"])]⟩] "ami-xyz"
      rfl rfl rfl (by decide) rfl rfl).2 "my-lt" rfl

/-- C9: `instanceToNode` reaches its panic branch exactly when the
launched instance's reported type is not among the instance-type
options passed to the request; under the precondition that the fleet
launched one of the (post-truncation) requested types, the panic is
unreachable and `Create` is total. -/
theorem C9_instance_to_node_totality (instanceTypes : List InstanceType)
    (launchedType : String) :
    ((instanceToNode launchedType (createInstanceTypeOptions instanceTypes)).isNone ↔
      launchedType ∉ (createInstanceTypeOptions instanceTypes).map
        (fun it => it.name))
    ∧ (launchedType ∈ (createInstanceTypeOptions instanceTypes).map
        (fun it => it.name) →
        ∀ (resp1 resp2 : Except AwsError CreateFleetOutput)
          (ltNames : List String) (ct : String) (st : LaunchState),
          createInstance instanceTypes resp1 resp2 launchedType ltNames ct st ≠
            .ok none) := by
  have hiff : ∀ (opts : List InstanceType) (t : String),
      (instanceToNode t opts).isNone ↔ t ∉ opts.map (fun it => it.name) := by
    intro opts t
    rw [Option.isNone_iff_eq_none]
    rw [show instanceToNode t opts = opts.find? (fun it => it.name == t) from rfl]
    rw [List.find?_eq_none]
    constructor
    · intro h hmem
      rcases List.mem_map.mp hmem with ⟨a, ha, hname⟩
      have := h a ha
      simp [hname] at this
    · intro h x hx
      by_cases hname : x.name = t
      · exact absurd (List.mem_map.mpr ⟨x, hx, hname⟩) h
      · simp [hname]
  refine ⟨hiff _ _, ?_⟩
  intro hmem resp1 resp2 ltNames ct st
  rw [show createInstance instanceTypes resp1 resp2 launchedType ltNames ct st =
      (match (createWithRetry resp1 resp2 ltNames ct st).result with
       | .error e => .error e
       | .ok _ => .ok (instanceToNode launchedType
          (createInstanceTypeOptions instanceTypes))) from rfl]
  cases h : (createWithRetry resp1 resp2 ltNames ct st).result with
  | error e => simp
  | ok id =>
    simp only
    intro hco
    have hnone : instanceToNode launchedType
        (createInstanceTypeOptions instanceTypes) = none := by
      injection hco
    have := (hiff (createInstanceTypeOptions instanceTypes) launchedType).mp
      (by simp [hnone])
    exact this hmem

/-- Witness for C9: launching `m5.large` from an option list that
contains it converts to a node without reaching the panic branch. -/
theorem C9_instance_to_node_totality_witness :
    createInstance [⟨"m5.large", false, 0, 0, 0, []⟩]
      (.ok ⟨[], ["i-0abc"]⟩) (.ok ⟨[], ["i-0abc"]⟩)
      "m5.large" ["lt"] "on-demand" ⟨[], []⟩ ≠ .ok none :=
  (C9_instance_to_node_totality [⟨"m5.large", false, 0, 0, 0, []⟩]
    "m5.large").2 (by decide) _ _ _ _ _

/-- C10: `getCapacityType` returns spot exactly when the request's
capacity-type requirement includes spot and some instance-type option
has an available spot offering in a zone permitted by the request's
zone requirement; in every other case it returns on-demand (the result
is always one of the two). -/
theorem C10_get_capacity_type (reqs : NodeRequestRequirements)
    (opts : List InstanceType) :
    (getCapacityType reqs opts = capacityTypeSpot ↔
      (capacityTypeSpot ∈ reqs.capacityTypes ∧
        ∃ it ∈ opts, ∃ o ∈ it.offerings, o.available = true ∧
          o.zone ∈ reqs.zones ∧ o.capacityType = capacityTypeSpot))
    ∧ (getCapacityType reqs opts = capacityTypeSpot ∨
        getCapacityType reqs opts = capacityTypeOnDemand) := by
  have hBiff : (opts.any (fun it => (AvailableOfferings it).any (fun o =>
      reqs.zones.contains o.zone && o.capacityType == capacityTypeSpot)) = true) ↔
      ∃ it ∈ opts, ∃ o ∈ it.offerings, o.available = true ∧
        o.zone ∈ reqs.zones ∧ o.capacityType = capacityTypeSpot := by
    simp only [List.any_eq_true, AvailableOfferings, List.mem_filter,
      Bool.and_eq_true, beq_iff_eq]
    constructor
    · rintro ⟨it, hit, o, ⟨ho, hav⟩, hz, hct⟩
      exact ⟨it, hit, o, ho, hav, by simpa using hz, hct⟩
    · rintro ⟨it, hit, o, ho, hav, hz, hct⟩
      exact ⟨it, hit, o, ⟨ho, hav⟩, by simpa using hz, hct⟩
  have hval : getCapacityType reqs opts =
      (if reqs.capacityTypes.contains capacityTypeSpot then
        (if opts.any (fun it => (AvailableOfferings it).any (fun o =>
            reqs.zones.contains o.zone && o.capacityType == capacityTypeSpot))
         then capacityTypeSpot else capacityTypeOnDemand)
       else capacityTypeOnDemand) := rfl
  by_cases h1 : reqs.capacityTypes.contains capacityTypeSpot = true
  · by_cases h2 : (opts.any (fun it => (AvailableOfferings it).any (fun o =>
        reqs.zones.contains o.zone && o.capacityType == capacityTypeSpot))) = true
    · rw [hval, if_pos h1, if_pos h2]
      refine ⟨⟨fun _ => ⟨by simpa using h1, hBiff.mp h2⟩, fun _ => rfl⟩, Or.inl rfl⟩
    · rw [hval, if_pos h1, if_neg h2]
      refine ⟨⟨fun hc => absurd hc (by decide), ?_⟩, Or.inr rfl⟩
      rintro ⟨-, hex⟩
      exact absurd (hBiff.mpr hex) h2
  · rw [hval, if_neg h1]
    refine ⟨⟨fun hc => absurd hc (by decide), ?_⟩, Or.inr rfl⟩
    rintro ⟨hmem, -⟩
    exact absurd (show reqs.capacityTypes.contains capacityTypeSpot = true by
      simpa using hmem) h1

/-- Witness for C10: with spot allowed and an available spot offering
in a permitted zone, spot is selected; removing availability falls
back to on-demand. -/
theorem C10_get_capacity_type_witness :
    getCapacityType ⟨["spot", "on-demand"], ["us-east-1a"]⟩
      [⟨"m5.large", false, 0, 0, 0, [⟨"us-east-1a", "spot", true⟩]⟩] =
      capacityTypeSpot
    ∧ getCapacityType ⟨["spot", "on-demand"], ["us-east-1a"]⟩
      [⟨"m5.large", false, 0, 0, 0, [⟨"us-east-1a", "spot", false⟩]⟩] =
      capacityTypeOnDemand := by
  constructor
  · exact (C10_get_capacity_type ⟨["spot", "on-demand"], ["us-east-1a"]⟩
      [⟨"m5.large", false, 0, 0, 0, [⟨"us-east-1a", "spot", true⟩]⟩]).1.mpr
      ⟨by decide, ⟨"m5.large", false, 0, 0, 0, [⟨"us-east-1a", "spot", true⟩]⟩,
        by decide, ⟨"us-east-1a", "spot", true⟩, by decide, rfl, by decide, rfl⟩
  · rcases (C10_get_capacity_type ⟨["spot", "on-demand"], ["us-east-1a"]⟩
      [⟨"m5.large", false, 0, 0, 0, [⟨"us-east-1a", "spot", false⟩]⟩]).2 with h | h
    · have := (C10_get_capacity_type ⟨["spot", "on-demand"], ["us-east-1a"]⟩
        [⟨"m5.large", false, 0, 0, 0, [⟨"us-east-1a", "spot", false⟩]⟩]).1.mp h
      rcases this with ⟨-, it, hit, o, ho, hav, -, -⟩
      simp only [List.mem_singleton] at hit
      subst hit
      simp only [List.mem_singleton] at ho
      subst ho
      exact absurd hav (by decide)
    · exact h

end KarpenterAws
